import Mathlib

/-!
Shallow embedding of the `WorkoutTimer` React component
(`src/workout_timer_tsx.ts`).

The component's state is the tuple of its `useState` hooks; numbers are
modelled as `Int` (JavaScript integer arithmetic at these magnitudes is
exact), colors as `String`.

Each event handler and each `useTimer` callback becomes a pure transition
on `TimerState`.  The three interval callbacks are only scheduled while
their `delay` is non-null (`isPreparing` for the prep ticker, `isActive`
for the phase and session tickers), so a tick event is the identity when
outside its scheduling condition.

The `useEffect` at lines 143-147 ("Reset current time when work time
changes") runs after any render in which one of its dependencies
`[workTime, isActive, isWork]` changed, and then re-bases `currentTime`
to `workTime` whenever `!isActive && isWork`.  React batches the state
updates of one callback into a single render, so the effect is modelled
by `render prev next`, applied once after every transition, comparing the
dependency values before and after it.
-/

structure InitialColors where
  WORK : String
  REST : String
  BACKGROUND : String
  TEXT : String
  deriving DecidableEq, Repr

structure InitialState where
  WORK_TIME : Int
  REST_TIME : Int
  TOTAL_DURATION : Int
  PREP_TIME : Int
  COLORS : InitialColors
  deriving DecidableEq, Repr

/-- The `INITIAL_STATES` constant of the source. -/
def INITIAL_STATES : InitialState :=
  { WORK_TIME := 40
    REST_TIME := 20
    TOTAL_DURATION := 8
    PREP_TIME := 3
    COLORS :=
      { WORK := "#00FF00"
        REST := "#FF0000"
        BACKGROUND := "#000000"
        TEXT := "#FFFFFF" } }

/-- The state of the `WorkoutTimer` component: one field per `useState`
hook (the `showSettings` flag is pure presentation and carries no timer
behaviour, so it is omitted). -/
structure TimerState where
  workTime : Int
  restTime : Int
  totalDuration : Int
  prepareTime : Int
  currentTime : Int
  isWork : Bool
  isActive : Bool
  isPreparing : Bool
  prepTime : Int
  sessionTime : Int
  workColor : String
  restColor : String
  bgColor : String
  textColor : String
  deriving DecidableEq, Repr

/-- The component state at mount: the initial values of the `useState`
hooks. -/
def mountState : TimerState :=
  { workTime := INITIAL_STATES.WORK_TIME
    restTime := INITIAL_STATES.REST_TIME
    totalDuration := INITIAL_STATES.TOTAL_DURATION
    prepareTime := INITIAL_STATES.PREP_TIME
    currentTime := INITIAL_STATES.WORK_TIME
    isWork := true
    isActive := false
    isPreparing := false
    prepTime := INITIAL_STATES.PREP_TIME
    sessionTime := 0
    workColor := INITIAL_STATES.COLORS.WORK
    restColor := INITIAL_STATES.COLORS.REST
    bgColor := INITIAL_STATES.COLORS.BACKGROUND
    textColor := INITIAL_STATES.COLORS.TEXT }

/-- `parseInt(e.target.value) || min` of `TimerSetting.onChange`:
a non-numeric string parses to `NaN`, which is falsy, and so is `0`;
both fall back to `min`.  The raw input is `none` for a non-numeric
string and `some n` for one parsing to the integer `n`. -/
def parseIntOr (raw : Option Int) (fallback : Int) : Int :=
  match raw with
  | none => fallback
  | some n => if n = 0 then fallback else n

/-- The committed value of `TimerSetting.onChange`:
`Math.max(min, Math.min(max, parseInt(e.target.value) || min))`. -/
def clampSetting (lo hi : Int) (raw : Option Int) : Int :=
  max lo (min hi (parseIntOr raw lo))

/-- `startPrepTimer` (lines 149-152). -/
def startPrepTimer (s : TimerState) : TimerState :=
  { s with isPreparing := true, prepTime := s.prepareTime }

/-- `toggleTimer` (lines 168-174). -/
def toggleTimer (s : TimerState) : TimerState :=
  if !s.isActive && !s.isPreparing then startPrepTimer s
  else { s with isActive := !s.isActive }

/-- `resetTimer` (lines 176-183). -/
def resetTimer (s : TimerState) : TimerState :=
  { s with
    isActive := false
    isPreparing := false
    prepTime := s.prepareTime
    currentTime := s.workTime
    isWork := true
    sessionTime := 0 }

/-- The preparation ticker callback (lines 154-166); its interval is only
scheduled while `isPreparing` (`delay = isPreparing ? 1000 : null`). -/
def tickPrep (s : TimerState) : TimerState :=
  if s.isPreparing then
    if s.prepTime ≤ 1 then
      { s with isPreparing := false, isActive := true, prepTime := s.prepareTime }
    else
      { s with prepTime := s.prepTime - 1 }
  else s

/-- The work/rest phase ticker callback (lines 185-197); its interval is
only scheduled while `isActive`. -/
def tickPhase (s : TimerState) : TimerState :=
  if s.isActive then
    if s.currentTime ≤ 1 then
      { s with
        isWork := !s.isWork
        currentTime :=
          if s.currentTime = 1 then (if s.isWork then s.restTime else s.workTime)
          else s.currentTime - 1 }
    else
      { s with currentTime := s.currentTime - 1 }
  else s

/-- The session ticker callback (lines 199-211); its interval is only
scheduled while `isActive`. -/
def tickSession (s : TimerState) : TimerState :=
  if s.isActive then
    if s.sessionTime ≥ s.totalDuration * 60 then
      { s with isActive := false }
    else
      { s with sessionTime := s.sessionTime + 1 }
  else s

/-- Body of the `useEffect` at lines 143-147. -/
def rebaseCurrentTime (s : TimerState) : TimerState :=
  if !s.isActive && s.isWork then { s with currentTime := s.workTime } else s

/-- Whether the dependency array `[workTime, isActive, isWork]` of that
`useEffect` changed between two renders. -/
def depsChanged (prev next : TimerState) : Bool :=
  next.workTime != prev.workTime || next.isActive != prev.isActive ||
    next.isWork != prev.isWork

/-- One render after a state transition: the re-base effect runs exactly
when one of its dependencies changed. -/
def render (prev next : TimerState) : TimerState :=
  if depsChanged prev next then rebaseCurrentTime next else next

/-- The discrete events of the component: the two buttons, the three
interval ticks, and the live-committing settings inputs (a duration input
carries `none` when the typed string is non-numeric). -/
inductive Event where
  | toggle
  | reset
  | prepTick
  | phaseTick
  | sessionTick
  | setWork (raw : Option Int)
  | setRest (raw : Option Int)
  | setTotal (raw : Option Int)
  | setPrep (raw : Option Int)
  | setWorkColor (c : String)
  | setRestColor (c : String)
  | setBgColor (c : String)
  | setTextColor (c : String)
  deriving DecidableEq, Repr

/-- The raw state update of each event, before the render effect.
The duration bounds are those of the four `TimerSetting` instantiations:
work and rest use the defaults `[1,3600]`, total duration `[1,60]`,
preparation `[1,10]`. -/
def applyAction (s : TimerState) : Event → TimerState
  | .toggle => toggleTimer s
  | .reset => resetTimer s
  | .prepTick => tickPrep s
  | .phaseTick => tickPhase s
  | .sessionTick => tickSession s
  | .setWork raw => { s with workTime := clampSetting 1 3600 raw }
  | .setRest raw => { s with restTime := clampSetting 1 3600 raw }
  | .setTotal raw => { s with totalDuration := clampSetting 1 60 raw }
  | .setPrep raw => { s with prepareTime := clampSetting 1 10 raw }
  | .setWorkColor c => { s with workColor := c }
  | .setRestColor c => { s with restColor := c }
  | .setBgColor c => { s with bgColor := c }
  | .setTextColor c => { s with textColor := c }

/-- One observable step of the component: the event's state update
followed by the render effect. -/
def step (s : TimerState) (a : Event) : TimerState :=
  render s (applyAction s a)

/-- Run a sequence of events. -/
def run (l : List Event) (s : TimerState) : TimerState :=
  l.foldl step s

/-- Iterated prep tick. -/
def prepStep (s : TimerState) : TimerState := step s Event.prepTick

/-- Iterated phase tick. -/
def phaseStep (s : TimerState) : TimerState := step s Event.phaseTick

/-- Events that leave the configuration untouched: button presses and
ticks, no settings edits. -/
def Event.isCore : Event → Bool
  | .toggle | .reset | .prepTick | .phaseTick | .sessionTick => true
  | _ => false

/-- A run made only of core (non-editing) events. -/
def allCore (l : List Event) : Bool := l.all Event.isCore

/-! ### Helper lemmas: the render effect only ever writes `currentTime` -/

@[simp] theorem render_workTime (p n : TimerState) :
    (render p n).workTime = n.workTime := by
  unfold render rebaseCurrentTime; split_ifs <;> rfl

@[simp] theorem render_restTime (p n : TimerState) :
    (render p n).restTime = n.restTime := by
  unfold render rebaseCurrentTime; split_ifs <;> rfl

@[simp] theorem render_totalDuration (p n : TimerState) :
    (render p n).totalDuration = n.totalDuration := by
  unfold render rebaseCurrentTime; split_ifs <;> rfl

@[simp] theorem render_prepareTime (p n : TimerState) :
    (render p n).prepareTime = n.prepareTime := by
  unfold render rebaseCurrentTime; split_ifs <;> rfl

@[simp] theorem render_isWork (p n : TimerState) :
    (render p n).isWork = n.isWork := by
  unfold render rebaseCurrentTime; split_ifs <;> rfl

@[simp] theorem render_isActive (p n : TimerState) :
    (render p n).isActive = n.isActive := by
  unfold render rebaseCurrentTime; split_ifs <;> rfl

@[simp] theorem render_isPreparing (p n : TimerState) :
    (render p n).isPreparing = n.isPreparing := by
  unfold render rebaseCurrentTime; split_ifs <;> rfl

@[simp] theorem render_prepTime (p n : TimerState) :
    (render p n).prepTime = n.prepTime := by
  unfold render rebaseCurrentTime; split_ifs <;> rfl

@[simp] theorem render_sessionTime (p n : TimerState) :
    (render p n).sessionTime = n.sessionTime := by
  unfold render rebaseCurrentTime; split_ifs <;> rfl

@[simp] theorem render_workColor (p n : TimerState) :
    (render p n).workColor = n.workColor := by
  unfold render rebaseCurrentTime; split_ifs <;> rfl

@[simp] theorem render_restColor (p n : TimerState) :
    (render p n).restColor = n.restColor := by
  unfold render rebaseCurrentTime; split_ifs <;> rfl

@[simp] theorem render_bgColor (p n : TimerState) :
    (render p n).bgColor = n.bgColor := by
  unfold render rebaseCurrentTime; split_ifs <;> rfl

@[simp] theorem render_textColor (p n : TimerState) :
    (render p n).textColor = n.textColor := by
  unfold render rebaseCurrentTime; split_ifs <;> rfl

/-! ### The clamp of `TimerSetting.onChange` -/

theorem clampSetting_some (lo hi v : Int) (hlo : 1 ≤ lo) (hhi : lo ≤ hi) :
    clampSetting lo hi (some v) = max lo (min hi v) := by
  unfold clampSetting parseIntOr
  by_cases hv : v = 0
  · subst hv; simp; omega
  · simp [hv]

theorem clampSetting_none (lo hi : Int) (hhi : lo ≤ hi) :
    clampSetting lo hi none = lo := by
  show max lo (min hi lo) = lo
  omega

/-- Claim C5: every duration field with declared bounds `[lo,hi]`
commits `max lo (min hi v)` on numeric input `v` and `lo` on
non-numeric input; instantiated at the four fields (work `[1,3600]`,
rest `[1,3600]`, total minutes `[1,60]`, prep `[1,10]`).  The commit is a
total function, so no error is ever surfaced. -/
theorem claim_c5_setting_clamps (lo hi v : Int) (s : TimerState)
    (hlo : 1 ≤ lo) (hhi : lo ≤ hi) :
    clampSetting lo hi (some v) = max lo (min hi v) ∧
    clampSetting lo hi none = lo ∧
    (step s (Event.setWork (some v))).workTime = max 1 (min 3600 v) ∧
    (step s (Event.setRest (some v))).restTime = max 1 (min 3600 v) ∧
    (step s (Event.setTotal (some v))).totalDuration = max 1 (min 60 v) ∧
    (step s (Event.setPrep (some v))).prepareTime = max 1 (min 10 v) ∧
    (step s (Event.setWork none)).workTime = 1 ∧
    (step s (Event.setRest none)).restTime = 1 ∧
    (step s (Event.setTotal none)).totalDuration = 1 ∧
    (step s (Event.setPrep none)).prepareTime = 1 := by
  refine ⟨clampSetting_some lo hi v hlo hhi, clampSetting_none lo hi hhi,
    ?_, ?_, ?_, ?_, ?_, ?_, ?_, ?_⟩ <;>
    simp [step, applyAction, clampSetting_some, clampSetting_none]

/-- Claim C5 witness at `lo = 1`, `hi = 3600`, `v = 5000`,
`s = mountState`. -/
theorem claim_c5_setting_clamps_witness :
    ((1:Int) ≤ 1 ∧ (1:Int) ≤ 3600) ∧
    (clampSetting 1 3600 (some 5000) = max 1 (min 3600 5000) ∧
     clampSetting 1 3600 none = 1 ∧
     (step mountState (Event.setWork (some 5000))).workTime = max 1 (min 3600 5000) ∧
     (step mountState (Event.setRest (some 5000))).restTime = max 1 (min 3600 5000) ∧
     (step mountState (Event.setTotal (some 5000))).totalDuration = max 1 (min 60 5000) ∧
     (step mountState (Event.setPrep (some 5000))).prepareTime = max 1 (min 10 5000) ∧
     (step mountState (Event.setWork none)).workTime = 1 ∧
     (step mountState (Event.setRest none)).restTime = 1 ∧
     (step mountState (Event.setTotal none)).totalDuration = 1 ∧
     (step mountState (Event.setPrep none)).prepareTime = 1) :=
  ⟨⟨by decide, by decide⟩,
   claim_c5_setting_clamps 1 3600 5000 mountState (by decide) (by decide)⟩

/-- Claim C7: from every state, reset yields `isActive = false`,
`isPreparing = false`, `prepTime = prepareTime`,
`currentTime = workTime`, `isWork = true`, `sessionTime = 0`, and reset
is idempotent. -/
theorem claim_c7_reset (s : TimerState) :
    (step s Event.reset).isActive = false ∧
    (step s Event.reset).isPreparing = false ∧
    (step s Event.reset).prepTime = s.prepareTime ∧
    (step s Event.reset).currentTime = s.workTime ∧
    (step s Event.reset).isWork = true ∧
    (step s Event.reset).sessionTime = 0 ∧
    step (step s Event.reset) Event.reset = step s Event.reset := by
  obtain ⟨wt, rt, td, pt, ct, iw, ia, ip, pr, st, cw, cr, cb, cx⟩ := s
  simp only [step, applyAction, resetTimer, render, depsChanged, rebaseCurrentTime]
  split_ifs <;> simp_all

/-- Claim C10: reset leaves all eight configuration fields (the four
durations and the four colors) unchanged. -/
theorem claim_c10_reset_frame (s : TimerState) :
    (step s Event.reset).workTime = s.workTime ∧
    (step s Event.reset).restTime = s.restTime ∧
    (step s Event.reset).totalDuration = s.totalDuration ∧
    (step s Event.reset).prepareTime = s.prepareTime ∧
    (step s Event.reset).workColor = s.workColor ∧
    (step s Event.reset).restColor = s.restColor ∧
    (step s Event.reset).bgColor = s.bgColor ∧
    (step s Event.reset).textColor = s.textColor := by
  simp [step, applyAction, resetTimer]

/-! ### Concrete traces -/

/-- Start from mount and complete the three-second preparation. -/
def warmup : List Event :=
  [Event.toggle, Event.prepTick, Event.prepTick, Event.prepTick]

/-- Claim C1 (code bug): the reachable running state after one phase tick
has `currentTime = 39`; pressing the start/pause toggle (pause) rewrites
`currentTime` to `40 = workTime`, because the re-base effect fires on the
`isActive` dependency change, and pressing it again (which re-enters
preparation) leaves it at `40`.  The claim says both presses leave
`currentTime` at `39`.  `sessionTime` is preserved as claimed. -/
theorem claim_c1_pause_rebases_work_countdown :
    (run (warmup ++ [Event.phaseTick]) mountState).isActive = true ∧
    (run (warmup ++ [Event.phaseTick]) mountState).isPreparing = false ∧
    (run (warmup ++ [Event.phaseTick]) mountState).isWork = true ∧
    (run (warmup ++ [Event.phaseTick]) mountState).currentTime = 39 ∧
    (run (warmup ++ [Event.phaseTick]) mountState).sessionTime = 0 ∧
    (run (warmup ++ [Event.phaseTick, Event.toggle]) mountState).isActive = false ∧
    (run (warmup ++ [Event.phaseTick, Event.toggle]) mountState).currentTime = 40 ∧
    (run (warmup ++ [Event.phaseTick, Event.toggle, Event.toggle]) mountState).currentTime = 40 ∧
    (run (warmup ++ [Event.phaseTick, Event.toggle, Event.toggle]) mountState).sessionTime = 0 ∧
    (run (warmup ++ [Event.phaseTick, Event.toggle, Event.toggle]) mountState).isActive = false ∧
    (run (warmup ++ [Event.phaseTick, Event.toggle, Event.toggle]) mountState).isPreparing = true := by
  decide

/-- Trace reaching the last instant of a one-minute session: set total
duration to 1 minute, start, prepare, take one phase tick (so the Work
countdown sits mid-phase at `39`), then 60 session ticks. -/
def sessionEndTrace : List Event :=
  [Event.setTotal (some 1)] ++ warmup ++ [Event.phaseTick] ++
    List.replicate 60 Event.sessionTick

set_option maxRecDepth 4000 in
/-- Claim C2 (code bug): at `sessionTime = totalMinutes*60 = 60` the next
session tick forces `isActive := false` and leaves `sessionTime` at `60`
as claimed, but `currentPhaseRemaining` is not left as-is: the re-base
effect fires on the `isActive` change and rewrites `currentTime` from
`39` to `workTime = 40`. -/
theorem claim_c2_session_end_rebases_work_countdown :
    (run sessionEndTrace mountState).isActive = true ∧
    (run sessionEndTrace mountState).isWork = true ∧
    (run sessionEndTrace mountState).totalDuration = 1 ∧
    (run sessionEndTrace mountState).sessionTime = 60 ∧
    (run sessionEndTrace mountState).currentTime = 39 ∧
    (step (run sessionEndTrace mountState) Event.sessionTick).isActive = false ∧
    (step (run sessionEndTrace mountState) Event.sessionTick).sessionTime = 60 ∧
    (step (run sessionEndTrace mountState) Event.sessionTick).currentTime = 40 := by
  decide

/-- Trace that pauses in the middle of a Rest phase: start, prepare, run
the whole Work phase (40 ticks, the 40th flips to Rest), then pause. -/
def pausedInRest : List Event :=
  warmup ++ List.replicate 40 Event.phaseTick ++ [Event.toggle]

set_option maxRecDepth 2000 in
/-- Claim C4 counterexample: `pausedInRest` reaches a state with
`isActive = false` and `isPreparing = false` (the claim's hypothesis) in
the Rest phase; invoking start and completing the `prepSeconds = 3`
preparation ticks enters Running with `isWork = false`, not `phase =
Work` as claimed. -/
theorem claim_c4_counterexample :
    (run pausedInRest mountState).isActive = false ∧
    (run pausedInRest mountState).isPreparing = false ∧
    (run pausedInRest mountState).isWork = false ∧
    (run (pausedInRest ++ warmup) mountState).isActive = true ∧
    (run (pausedInRest ++ warmup) mountState).isPreparing = false ∧
    (run (pausedInRest ++ warmup) mountState).isWork = false := by
  decide

/-- Claim C8 counterexample: from mount, start preparation and press the
toggle again: `isPreparing` stays `true` and `isActive` becomes `true`,
so the phase ticker is scheduled and the next phase tick changes
`currentTime` from `40` to `39` while `isPreparing` is still `true`. -/
theorem claim_c8_counterexample :
    (run [Event.toggle, Event.toggle] mountState).isPreparing = true ∧
    (run [Event.toggle, Event.toggle] mountState).isActive = true ∧
    (run [Event.toggle, Event.toggle] mountState).currentTime = 40 ∧
    (run [Event.toggle, Event.toggle, Event.phaseTick] mountState).isPreparing = true ∧
    (run [Event.toggle, Event.toggle, Event.phaseTick] mountState).currentTime = 39 := by
  decide

/-- Claim C9 counterexample: after starting (running Work phase with
`currentTime = 40`), editing `workSeconds` down to `1` is a clamped
settings edit that leaves the running countdown at `40`, which exceeds
`max workTime restTime = max 1 20 = 20`. -/
theorem claim_c9_counterexample :
    (run (warmup ++ [Event.setWork (some 1)]) mountState).workTime = 1 ∧
    (run (warmup ++ [Event.setWork (some 1)]) mountState).restTime = 20 ∧
    (run (warmup ++ [Event.setWork (some 1)]) mountState).currentTime = 40 ∧
    ¬((run (warmup ++ [Event.setWork (some 1)]) mountState).currentTime ≤
      max (run (warmup ++ [Event.setWork (some 1)]) mountState).workTime
        (run (warmup ++ [Event.setWork (some 1)]) mountState).restTime) := by
  decide

/-! ### The re-base invariant: in every reachable idle Work-phase state,
`currentTime` equals `workTime` -/

/-- In an idle Work-phase state the countdown shows the full work
duration: maintained by the re-base effect. -/
def rebaseInv (s : TimerState) : Prop :=
  s.isActive = false → s.isWork = true → s.currentTime = s.workTime

set_option maxHeartbeats 1000000 in
theorem step_rebaseInv (s : TimerState) (a : Event) (hs : rebaseInv s) :
    rebaseInv (step s a) := by
  obtain ⟨wt, rt, td, pt, ct, iw, ia, ip, pr, st, cw, cr, cb, cx⟩ := s
  unfold rebaseInv at hs ⊢
  cases a <;>
    cases ia <;> cases iw <;> cases ip <;>
      simp_all [step, applyAction, toggleTimer, startPrepTimer, resetTimer,
        tickPrep, tickPhase, tickSession, render, depsChanged, rebaseCurrentTime] <;>
      split_ifs <;> simp_all

theorem render_of_depsChanged (p n : TimerState) (h : depsChanged p n = true) :
    render p n = rebaseCurrentTime n := by
  simp [render, h]

theorem render_of_not_depsChanged (p n : TimerState) (h : depsChanged p n = false) :
    render p n = n := by
  simp [render, h]

theorem run_rebaseInv (l : List Event) (s : TimerState) (hs : rebaseInv s) :
    rebaseInv (run l s) := by
  induction l generalizing s with
  | nil => exact hs
  | cons a l ih => exact ih _ (step_rebaseInv s a hs)

/-- Claim C6: editing `workSeconds` to an in-range value `w` while idle
in the Work phase immediately re-bases `currentTime` to `w`; editing it
while active leaves the running countdown untouched. -/
theorem claim_c6_work_edit (l : List Event) (s : TimerState) (w : Int)
    (h1 : 1 ≤ w) (h2 : w ≤ 3600) :
    ((run l mountState).isActive = false → (run l mountState).isWork = true →
      (step (run l mountState) (Event.setWork (some w))).currentTime = w) ∧
    (s.isActive = true →
      (step s (Event.setWork (some w))).currentTime = s.currentTime) := by
  have hclamp : clampSetting 1 3600 (some w) = w := by
    rw [clampSetting_some 1 3600 w (by omega) (by omega)]
    omega
  constructor
  · intro hA hW
    have hInv : rebaseInv (run l mountState) :=
      run_rebaseInv l mountState (fun _ _ => rfl)
    set t := run l mountState with ht
    have happ : applyAction t (Event.setWork (some w)) = { t with workTime := w } := by
      simp [applyAction, hclamp]
    rw [step, happ]
    by_cases hwt : w = t.workTime
    · have hdep : depsChanged t { t with workTime := w } = false := by
        simp [depsChanged, hwt]
      rw [render_of_not_depsChanged _ _ hdep]
      show t.currentTime = w
      rw [hInv hA hW]
      exact hwt.symm
    · have hdep : depsChanged t { t with workTime := w } = true := by
        simp [depsChanged, hwt]
      rw [render_of_depsChanged _ _ hdep]
      simp [rebaseCurrentTime, hA, hW]
  · intro hA
    simp [step, applyAction, render, rebaseCurrentTime, hA]

/-- Claim C6 witness: the empty run (the mount state, idle in Work) and
`w = 7`. -/
theorem claim_c6_work_edit_witness :
    ((1:Int) ≤ 7 ∧ (7:Int) ≤ 3600) ∧
    (((run [] mountState).isActive = false → (run [] mountState).isWork = true →
      (step (run [] mountState) (Event.setWork (some 7))).currentTime = 7) ∧
     (mountState.isActive = true →
      (step mountState (Event.setWork (some 7))).currentTime = mountState.currentTime)) :=
  ⟨⟨by decide, by decide⟩,
   claim_c6_work_edit [] mountState 7 (by decide) (by decide)⟩

/-- Claim C8 (amended): while `isPreparing = true` and `isActive = false`
no tick changes `currentTime` (the phase and session tickers are not
scheduled, and the prep ticker never writes it); the start/pause toggle
keeps `isPreparing = true` and leaves `currentTime` unchanged — but it
sets `isActive`, after which phase ticks do run during preparation
(`claim_c8_counterexample`). -/
theorem claim_c8_amended (s : TimerState) (hp : s.isPreparing = true)
    (ha : s.isActive = false) :
    (step s Event.prepTick).currentTime = s.currentTime ∧
    (step s Event.phaseTick).currentTime = s.currentTime ∧
    (step s Event.sessionTick).currentTime = s.currentTime ∧
    (step s Event.toggle).isPreparing = true ∧
    (step s Event.toggle).currentTime = s.currentTime := by
  obtain ⟨wt, rt, td, pt, ct, iw, ia, ip, pr, st, cw, cr, cb, cx⟩ := s
  subst hp ha
  cases iw <;>
    simp_all [step, applyAction, toggleTimer, startPrepTimer, tickPrep,
      tickPhase, tickSession, render, depsChanged, rebaseCurrentTime] <;>
    split_ifs <;> simp_all

/-- Claim C8 amended witness: the state one toggle after mount is
preparing and inactive. -/
theorem claim_c8_amended_witness :
    ((run [Event.toggle] mountState).isPreparing = true ∧
     (run [Event.toggle] mountState).isActive = false) ∧
    ((step (run [Event.toggle] mountState) Event.prepTick).currentTime =
      (run [Event.toggle] mountState).currentTime ∧
     (step (run [Event.toggle] mountState) Event.phaseTick).currentTime =
      (run [Event.toggle] mountState).currentTime ∧
     (step (run [Event.toggle] mountState) Event.sessionTick).currentTime =
      (run [Event.toggle] mountState).currentTime ∧
     (step (run [Event.toggle] mountState) Event.toggle).isPreparing = true ∧
     (step (run [Event.toggle] mountState) Event.toggle).currentTime =
      (run [Event.toggle] mountState).currentTime) :=
  ⟨⟨by decide, by decide⟩,
   claim_c8_amended (run [Event.toggle] mountState) (by decide) (by decide)⟩

theorem phaseStep_decrement (u : TimerState) (ha : u.isActive = true)
    (h2 : 2 ≤ u.currentTime) :
    phaseStep u = { u with currentTime := u.currentTime - 1 } := by
  have hgt : ¬(u.currentTime ≤ 1) := by omega
  simp [phaseStep, step, applyAction, tickPhase, ha, hgt, render, depsChanged]

theorem phaseStep_flip (u : TimerState) (ha : u.isActive = true)
    (h1 : u.currentTime = 1) :
    phaseStep u =
      { u with
        isWork := !u.isWork
        currentTime := if u.isWork then u.restTime else u.workTime } := by
  have hle : u.currentTime ≤ 1 := by omega
  simp [phaseStep, step, applyAction, tickPhase, ha, hle, h1, render, depsChanged,
    rebaseCurrentTime]

theorem phaseStep_countdown (j : Nat) : ∀ (u : TimerState) (c : Int),
    u.isActive = true → u.currentTime = c → (j : Int) < c →
    phaseStep^[j] u = { u with currentTime := c - j } := by
  induction j with
  | zero =>
    intro u c ha hc _
    have hval : c - ((0 : Nat) : Int) = u.currentTime := by rw [hc]; simp
    rw [Function.iterate_zero_apply, hval]
  | succ m ih =>
    intro u c ha hc hj
    have h2 : 2 ≤ u.currentTime := by rw [hc]; push_cast at hj; omega
    rw [Function.iterate_succ_apply, phaseStep_decrement u ha h2]
    have hres := ih { u with currentTime := u.currentTime - 1 } (c - 1)
      (by simpa using ha) (by simp [hc]) (by push_cast at hj ⊢; omega)
    rw [hres]
    congr 1
    push_cast
    ring

theorem phaseStep_segment (n : Nat) (u : TimerState) (ha : u.isActive = true)
    (hc : u.currentTime = (n : Int)) (hn : 1 ≤ n) :
    phaseStep^[n] u =
      { u with
        isWork := !u.isWork
        currentTime := if u.isWork then u.restTime else u.workTime } := by
  obtain ⟨m, rfl⟩ : ∃ m, n = m + 1 := ⟨n - 1, by omega⟩
  rw [Function.iterate_succ_apply']
  rcases Nat.eq_zero_or_pos m with hm | hm
  · subst hm
    rw [Function.iterate_zero_apply]
    exact phaseStep_flip u ha (by rw [hc]; simp)
  · have hcount := phaseStep_countdown m u ((m : Int) + 1) ha (by push_cast at hc ⊢; omega)
      (by omega)
    rw [hcount]
    have hflip := phaseStep_flip { u with currentTime := (m : Int) + 1 - m }
      (by simpa using ha) (by simp)
    rw [hflip]

/-- Claim C3 (confirmed): from a running Work-phase state with
`currentTime = workSeconds` and `workSeconds, restSeconds` in `[1,3600]`,
each of the first `workSeconds - 1` phase ticks merely decrements
`currentTime` by one, the tick whose prior value is `1` (the
`workSeconds`-th) flips the phase to Rest and re-bases `currentTime` to
`restSeconds`, a further `restSeconds` ticks return to Work with
`currentTime = workSeconds`, and the `workSeconds + restSeconds` cycle
restores the state exactly, hence repeats indefinitely while the ticker
stays scheduled (`isActive = true`). -/
theorem claim_c3_phase_alternation (s : TimerState) (w r : Nat)
    (hw1 : 1 ≤ w) (hw2 : w ≤ 3600) (hr1 : 1 ≤ r) (hr2 : r ≤ 3600)
    (ha : s.isActive = true) (hW : s.isWork = true)
    (hwt : s.workTime = (w : Int)) (hrt : s.restTime = (r : Int))
    (hc : s.currentTime = (w : Int)) :
    (∀ j : Nat, j < w → (phaseStep^[j] s).isWork = true ∧
      (phaseStep^[j] s).currentTime = (w : Int) - j) ∧
    (phaseStep^[w] s).isWork = false ∧
    (phaseStep^[w] s).currentTime = (r : Int) ∧
    (∀ j : Nat, j < r → (phaseStep^[w + j] s).isWork = false ∧
      (phaseStep^[w + j] s).currentTime = (r : Int) - j) ∧
    (∀ k : Nat, phaseStep^[(w + r) * k] s = s) := by
  have hseg1 : phaseStep^[w] s = { s with isWork := false, currentTime := (r : Int) } := by
    rw [phaseStep_segment w s ha hc hw1, hW, hrt]
    simp
  have hmid : ∀ j : Nat, j < w → phaseStep^[j] s = { s with currentTime := (w : Int) - j } :=
    fun j hj => phaseStep_countdown j s (w : Int) ha hc (by exact_mod_cast hj)
  have hrest : ∀ j : Nat, j < r →
      phaseStep^[w + j] s = { s with isWork := false, currentTime := (r : Int) - j } := by
    intro j hj
    rw [Nat.add_comm w j, Function.iterate_add_apply, hseg1]
    have := phaseStep_countdown j { s with isWork := false, currentTime := (r : Int) }
      (r : Int) (by simpa using ha) (by simp) (by exact_mod_cast hj)
    rw [this]
  have hcycle : phaseStep^[w + r] s = s := by
    rw [Nat.add_comm w r, Function.iterate_add_apply, hseg1]
    rw [phaseStep_segment r { s with isWork := false, currentTime := (r : Int) }
      (by simpa using ha) (by simp) hr1]
    simp only [Bool.not_false, Bool.false_eq_true, if_false]
    show ({ s with isWork := true, currentTime := s.workTime } : TimerState) =
      { s with isWork := s.isWork, currentTime := s.currentTime }
    rw [hW, hwt, hc]
  refine ⟨?_, ?_, ?_, ?_, ?_⟩
  · intro j hj
    rw [hmid j hj]
    exact ⟨hW, rfl⟩
  · rw [hseg1]
  · rw [hseg1]
  · intro j hj
    rw [hrest j hj]
    exact ⟨rfl, rfl⟩
  · intro k
    induction k with
    | zero => simp
    | succ m ih =>
      rw [Nat.mul_succ, Function.iterate_add_apply, hcycle, ih]

theorem prepStep_decrement (u : TimerState) (hp : u.isPreparing = true)
    (h2 : 2 ≤ u.prepTime) :
    prepStep u = { u with prepTime := u.prepTime - 1 } := by
  have hgt : ¬(u.prepTime ≤ 1) := by omega
  simp [prepStep, step, applyAction, tickPrep, hp, hgt, render, depsChanged]

theorem prepStep_complete (u : TimerState) (hp : u.isPreparing = true)
    (h1 : u.prepTime ≤ 1) :
    prepStep u =
      { u with isPreparing := false, isActive := true, prepTime := u.prepareTime } := by
  simp [prepStep, step, applyAction, tickPrep, hp, h1, render, depsChanged,
    rebaseCurrentTime]

theorem prepStep_run (n : Nat) : ∀ (u : TimerState), u.isPreparing = true →
    u.prepTime = (n : Int) → 1 ≤ n →
    prepStep^[n] u =
      { u with isPreparing := false, isActive := true, prepTime := u.prepareTime } := by
  induction n with
  | zero => intro u _ _ h; omega
  | succ m ih =>
    intro u hp hpt _
    rcases Nat.eq_zero_or_pos m with hm | hm
    · subst hm
      rw [Function.iterate_one]
      exact prepStep_complete u hp (by rw [hpt]; norm_num)
    · have h2 : 2 ≤ u.prepTime := by rw [hpt]; push_cast; omega
      rw [Function.iterate_succ_apply, prepStep_decrement u hp h2]
      have := ih { u with prepTime := u.prepTime - 1 } (by simpa using hp)
        (by show u.prepTime - 1 = (m : Int); rw [hpt]; push_cast; ring) hm
      rw [this]

/-- Claim C4 (amended): from an idle state (`isActive = false`,
`isPreparing = false`) the start action enters Preparing with
`prepTime = prepareTime`, and after exactly `prepSeconds` prep ticks the
machine is Running (`isActive = true`, `isPreparing = false`) with
`prepTime` immediately rewritten to `prepareTime`; the phase is the one
held when start was invoked (`isWork` unchanged), which is Work from the
initial or reset state but not in general. -/
theorem claim_c4_amended (s : TimerState) (p : Nat) (hp : 1 ≤ p)
    (hprep : s.prepareTime = (p : Int))
    (hA : s.isActive = false) (hP : s.isPreparing = false) :
    (step s Event.toggle).isPreparing = true ∧
    (step s Event.toggle).isActive = false ∧
    (step s Event.toggle).prepTime = s.prepareTime ∧
    (step s Event.toggle).isWork = s.isWork ∧
    (step s Event.toggle).currentTime = s.currentTime ∧
    (prepStep^[p] (step s Event.toggle)).isActive = true ∧
    (prepStep^[p] (step s Event.toggle)).isPreparing = false ∧
    (prepStep^[p] (step s Event.toggle)).prepTime = s.prepareTime ∧
    (prepStep^[p] (step s Event.toggle)).isWork = s.isWork ∧
    (prepStep^[p] (step s Event.toggle)).currentTime = s.currentTime ∧
    (prepStep^[p] (step s Event.toggle)).sessionTime = s.sessionTime := by
  have htog : step s Event.toggle = startPrepTimer s := by
    simp [step, applyAction, toggleTimer, hA, hP, render, depsChanged, startPrepTimer]
  rw [htog]
  have hrun := prepStep_run p (startPrepTimer s) (by simp [startPrepTimer])
    (by simp [startPrepTimer, hprep]) hp
  rw [hrun]
  simp [startPrepTimer, hA]

def coreInv (s : TimerState) : Prop :=
  s.workTime = 40 ∧ s.restTime = 20 ∧ s.totalDuration = 8 ∧
    1 ≤ s.currentTime ∧ s.currentTime ≤ 40 ∧
    0 ≤ s.sessionTime ∧ s.sessionTime ≤ 480

set_option maxHeartbeats 1000000 in
theorem step_coreInv (s : TimerState) (a : Event) (hc : Event.isCore a = true)
    (hs : coreInv s) : coreInv (step s a) := by
  obtain ⟨wt, rt, td, pt, ct, iw, ia, ip, pr, st, cw, cr, cb, cx⟩ := s
  cases a <;> simp only [Event.isCore] at hc
  all_goals
    cases ia <;> cases iw <;> cases ip <;>
      simp_all [coreInv, step, applyAction, toggleTimer, startPrepTimer,
        resetTimer, tickPrep, tickPhase, tickSession, render, depsChanged,
        rebaseCurrentTime] <;>
      split_ifs <;> simp_all <;> omega

theorem run_coreInv : ∀ (l : List Event) (s : TimerState), allCore l = true →
    coreInv s → coreInv (run l s) := by
  intro l
  induction l with
  | nil => intro s _ hs; exact hs
  | cons a t ih =>
    intro s hl hs
    rw [allCore, List.all_cons, Bool.and_eq_true] at hl
    exact ih (step s a) hl.2 (step_coreInv s a hl.1 hs)

/-- Claim C9 (amended): in every state reachable from the mount state by
start/pause, reset and ticks alone (no settings edits), `currentTime`
lies in `[0, max workTime restTime]` and `sessionTime` lies in
`[0, totalDuration * 60]`. -/
theorem claim_c9_amended (l : List Event) (hl : allCore l = true) :
    0 ≤ (run l mountState).currentTime ∧
    (run l mountState).currentTime ≤
      max (run l mountState).workTime (run l mountState).restTime ∧
    0 ≤ (run l mountState).sessionTime ∧
    (run l mountState).sessionTime ≤ (run l mountState).totalDuration * 60 := by
  have h := run_coreInv l mountState hl (by constructor <;> simp [mountState, INITIAL_STATES])
  obtain ⟨h1, h2, h3, h4, h5, h6, h7⟩ := h
  rw [h1, h2, h3]
  refine ⟨by omega, by omega, by omega, by omega⟩

/-- Concrete running Work-phase state for the C3 witness:
`workSeconds = 2`, `restSeconds = 3`. -/
def c3State : TimerState :=
  { mountState with workTime := 2, restTime := 3, currentTime := 2, isActive := true }

/-- Claim C3 witness at `w = 2`, `r = 3`. -/
theorem claim_c3_phase_alternation_witness :
    (1 ≤ 2 ∧ 2 ≤ 3600 ∧ 1 ≤ 3 ∧ 3 ≤ 3600 ∧ c3State.isActive = true ∧
     c3State.isWork = true ∧ c3State.workTime = ((2 : Nat) : Int) ∧
     c3State.restTime = ((3 : Nat) : Int) ∧ c3State.currentTime = ((2 : Nat) : Int)) ∧
    ((∀ j : Nat, j < 2 → (phaseStep^[j] c3State).isWork = true ∧
        (phaseStep^[j] c3State).currentTime = ((2 : Nat) : Int) - j) ∧
     (phaseStep^[2] c3State).isWork = false ∧
     (phaseStep^[2] c3State).currentTime = ((3 : Nat) : Int) ∧
     (∀ j : Nat, j < 3 → (phaseStep^[2 + j] c3State).isWork = false ∧
        (phaseStep^[2 + j] c3State).currentTime = ((3 : Nat) : Int) - j) ∧
     (∀ k : Nat, phaseStep^[(2 + 3) * k] c3State = c3State)) :=
  ⟨⟨by decide, by decide, by decide, by decide, by decide, by decide, by decide,
    by decide, by decide⟩,
   claim_c3_phase_alternation c3State 2 3 (by decide) (by decide) (by decide)
     (by decide) (by decide) (by decide) (by decide) (by decide) (by decide)⟩

/-- Claim C4 amended witness: the mount state with `prepSeconds = 3`. -/
theorem claim_c4_amended_witness :
    (1 ≤ 3 ∧ mountState.prepareTime = ((3 : Nat) : Int) ∧
     mountState.isActive = false ∧ mountState.isPreparing = false) ∧
    ((step mountState Event.toggle).isPreparing = true ∧
     (step mountState Event.toggle).isActive = false ∧
     (step mountState Event.toggle).prepTime = mountState.prepareTime ∧
     (step mountState Event.toggle).isWork = mountState.isWork ∧
     (step mountState Event.toggle).currentTime = mountState.currentTime ∧
     (prepStep^[3] (step mountState Event.toggle)).isActive = true ∧
     (prepStep^[3] (step mountState Event.toggle)).isPreparing = false ∧
     (prepStep^[3] (step mountState Event.toggle)).prepTime = mountState.prepareTime ∧
     (prepStep^[3] (step mountState Event.toggle)).isWork = mountState.isWork ∧
     (prepStep^[3] (step mountState Event.toggle)).currentTime = mountState.currentTime ∧
     (prepStep^[3] (step mountState Event.toggle)).sessionTime = mountState.sessionTime) :=
  ⟨⟨by decide, by decide, by decide, by decide⟩,
   claim_c4_amended mountState 3 (by decide) (by decide) (by decide) (by decide)⟩

/-- Claim C9 amended witness: the core run that starts the timer and
completes preparation. -/
theorem claim_c9_amended_witness :
    allCore warmup = true ∧
    (0 ≤ (run warmup mountState).currentTime ∧
     (run warmup mountState).currentTime ≤
       max (run warmup mountState).workTime (run warmup mountState).restTime ∧
     0 ≤ (run warmup mountState).sessionTime ∧
     (run warmup mountState).sessionTime ≤
       (run warmup mountState).totalDuration * 60) :=
  ⟨by decide, claim_c9_amended warmup (by decide)⟩
